import Mathlib

/-!
Verification of the reintroduction streak engine of the semaphore backend
(src/main.py): the phase-1 streak calculator (`update_phase1_streak_days`)
and the phase-2 reintroduction/break driver (`update_phase2_streak_days`).

Modelling conventions (shallow embedding of the Python source):
* Calendar dates are integers (day numbers); the timezone conversion of the
  source maps every stored timestamp to the calendar date it has in the
  caller's timezone, so each record is modelled with that resulting date.
  A SQL `CURRENT_TIMESTAMP` written during an invocation running on day
  `today` has date `today`.
* SQLite rows become structures; a nullable column becomes an `Option`;
  an absent row becomes `none` in an `Option` record.
* Each `conn.commit()` of the source is a commit point: the store state at
  that moment is appended to a commit trace.  `rollback` discards
  everything after the last commit, so a store failure after `k`
  successful commits leaves the snapshot of commit `k` (or the initial
  state when `k = 0`).
* The food-note SQL join resolving each list item's six FODMAP levels from
  either `user_products` or `product` is folded into the data: a food note
  carries its resolved items, each flagged `user_created` (the source's
  `uli.user_created_id IS NOT NULL`).
-/

/-- One row of `symptoms_diary`: the four symptom severities and the
calendar date (in the caller's timezone) of `created_at`. -/
structure DiaryEntry where
  date : Int
  wind_level : Nat
  bloat_level : Nat
  pain_level : Nat
  stool_level : Nat
deriving DecidableEq

/-- One resolved food item of a food note: the `user_created` flag selects
between the catalog scale and the inverted user-authored scale, and the six
FODMAP severity levels come from the corresponding product row. -/
structure FoodItem where
  user_created : Bool
  fructose_level : Nat
  lactose_level : Nat
  fructan_level : Nat
  mannitol_level : Nat
  sorbitol_level : Nat
  gos_level : Nat
deriving DecidableEq

/-- One row of `food_notes` with its resolved food-list items; `date` is
the calendar date of `created_at` in the caller's timezone. -/
structure FoodNote where
  date : Int
  items : List FoodItem
deriving DecidableEq

/-- The `phases_timings` row of a user: optional phase start instants,
kept as their calendar dates in the caller's timezone. -/
structure PhasesTimings where
  phase1_date : Option Int
  phase2_date : Option Int
deriving DecidableEq

/-- The `phase_tracking` row of a user (columns of src/database.py);
counter columns are nullable with default 0. -/
structure PhaseTracking where
  current_phase : Nat
  phase1_streak_days : Option Nat
  phase2_reintroduction_days : Option Nat
  phase2_break_days : Option Nat
  phase2_current_fodmap_group_id : Option Nat
  updated_at : Int
deriving DecidableEq

/-- The six FODMAP groups of the `phase2_tracking` row. -/
inductive FodmapGroup where
  | fructose
  | lactose
  | fructan
  | mannitol
  | sorbitol
  | gos
deriving DecidableEq

/-- The `phase2_tracking` row of a user: one result column per FODMAP
group, the group currently under test, and the `updated_at` timestamp kept
as its calendar date in the caller's timezone. -/
structure Phase2Tracking where
  fructose : Nat
  lactose : Nat
  fructan : Nat
  mannitol : Nat
  sorbitol : Nat
  gos : Nat
  current_group : Option FodmapGroup
  updated_at : Int
deriving DecidableEq

/-- Read the result column of a FODMAP group. -/
def Phase2Tracking.groupVal (r : Phase2Tracking) : FodmapGroup → Nat
  | .fructose => r.fructose
  | .lactose => r.lactose
  | .fructan => r.fructan
  | .mannitol => r.mannitol
  | .sorbitol => r.sorbitol
  | .gos => r.gos

/-- Write the result column of a FODMAP group (the source's
`SET {current_group} = ?`). -/
def Phase2Tracking.setGroupVal (r : Phase2Tracking) (g : FodmapGroup) (v : Nat) :
    Phase2Tracking :=
  match g with
  | .fructose => { r with fructose := v }
  | .lactose => { r with lactose := v }
  | .fructan => { r with fructan := v }
  | .mannitol => { r with mannitol := v }
  | .sorbitol => { r with sorbitol := v }
  | .gos => { r with gos := v }

/-- The per-user slice of the database the two endpoints read and write. -/
structure Store where
  phases_timings : Option PhasesTimings
  phase_tracking : Option PhaseTracking
  phase2_tracking : Option Phase2Tracking
  diary : List DiaryEntry
  food_notes : List FoodNote
deriving DecidableEq

/-- Errors surfaced by the endpoints (HTTP 404 of the source). -/
inductive StoreErr where
  | notFound
deriving DecidableEq

/-! ## Phase-1 streak calculator (src/main.py, update_phase1_streak_days) -/

/-- Diary entries bucketed on one calendar date (the source's
`entries_by_date[current_date]`). -/
def entriesOn (entries : List DiaryEntry) (d : Int) : List DiaryEntry :=
  entries.filter (fun e => e.date = d)

/-- The source's per-entry test `wind_level > 2 or bloat_level > 2 or
pain_level > 2 or stool_level > 2`. -/
def entryHighB (e : DiaryEntry) : Bool :=
  decide (2 < e.wind_level) || decide (2 < e.bloat_level) ||
  decide (2 < e.pain_level) || decide (2 < e.stool_level)

/-- The source's loop guard `phase1_date and current_date < phase1_date`. -/
def beforeStartB (p1 : Option Int) (d : Int) : Bool :=
  match p1 with
  | some p => decide (d < p)
  | none => false

/-- The backward walk of `update_phase1_streak_days` (the `while True`
loop at src/main.py:2396); `fuel` bounds the number of iterations and is
instantiated by `phase1Fuel`, which exceeds the number of iterations the
source loop can make. -/
def phase1Walk (entries : List DiaryEntry) (p1 : Option Int) :
    Nat → Int → Nat → Nat → Nat
  | 0, _, streak, _ => streak
  | fuel + 1, d, streak, dw =>
    if beforeStartB p1 d then streak
    else if (entriesOn entries d).isEmpty then
      if 2 ≤ dw + 1 then streak
      else phase1Walk entries p1 fuel (d - 1) streak (dw + 1)
    else if (entriesOn entries d).any entryHighB then streak
    else phase1Walk entries p1 fuel (d - 1) (streak + 1) 0

/-- A lower bound on every date the source loop can visit: `phase1_date`
when present, otherwise the smallest diary date (the loop stops at the
second consecutive day without entries below it). -/
def lowerBoundDate (entries : List DiaryEntry) (p1 : Option Int) (today : Int) : Int :=
  match p1 with
  | some p => p
  | none => entries.foldr (fun e acc => min e.date acc) today

/-- Iteration budget exceeding what the source's backward loop needs. -/
def phase1Fuel (entries : List DiaryEntry) (p1 : Option Int) (today : Int) : Nat :=
  (today - lowerBoundDate entries p1 today).toNat + 3

/-- The streak value computed by `update_phase1_streak_days` from the
bucketed entries. -/
def phase1Streak (entries : List DiaryEntry) (p1 : Option Int) (today : Int) : Nat :=
  phase1Walk entries p1 (phase1Fuel entries p1 today) today 0 0

/-- The `update_phase1_streak_days` endpoint: 404 when the user has no
`phase_tracking` row; read the optional `phase1_date`; when present,
restrict the diary query to entries dated on or after it; run the
backward walk; overwrite `phase1_streak_days` (and the row's
`updated_at`). -/
def updatePhase1StreakDays (st : Store) (today : Int) :
    Except StoreErr (Nat × Store) :=
  match st.phase_tracking with
  | none => .error .notFound
  | some pt =>
    let p1 : Option Int := st.phases_timings.bind (fun t => t.phase1_date)
    let entries : List DiaryEntry :=
      match p1 with
      | some p => st.diary.filter (fun e => decide (p ≤ e.date))
      | none => st.diary
    let streak := phase1Streak entries p1 today
    .ok (streak,
      { st with
        phase_tracking := some
          { pt with phase1_streak_days := some streak, updated_at := today } })

/-- Streak value of a phase-1 endpoint outcome, for stating results. -/
def streakResult (o : Except StoreErr (Nat × Store)) : Option Nat :=
  match o with
  | .ok (s, _) => some s
  | .error _ => none

/-! ## Phase-2 reintroduction/break driver (src/main.py, update_phase2_streak_days) -/

/-- Food notes bucketed on one calendar date (the source's
`notes_by_date[date_to_check]`). -/
def notesOn (notes : List FoodNote) (d : Int) : List FoodNote :=
  notes.filter (fun n => n.date = d)

/-- The source's per-item high-FODMAP test: for a user-authored product any
of the six levels `< 2` is high (inverted scale, 0 = high), for a catalog
product any of the six levels `> 1` is high. -/
def highFodmapItemB (it : FoodItem) : Bool :=
  if it.user_created then
    decide (it.fructose_level < 2) || decide (it.lactose_level < 2) ||
    decide (it.fructan_level < 2) || decide (it.mannitol_level < 2) ||
    decide (it.sorbitol_level < 2) || decide (it.gos_level < 2)
  else
    decide (1 < it.fructose_level) || decide (1 < it.lactose_level) ||
    decide (1 < it.fructan_level) || decide (1 < it.mannitol_level) ||
    decide (1 < it.sorbitol_level) || decide (1 < it.gos_level)

/-- The source's per-day scan: `high_fodmap_found` over every item of
every note of the day. -/
def dayHighFodmapB (notes : List FoodNote) (d : Int) : Bool :=
  (notesOn notes d).any (fun n => n.items.any highFodmapItemB)

/-- The ascending list of dates the forward loop visits:
`starting_date, starting_date + 1, ..., current_date` (empty when
`starting_date > current_date`). -/
def dayRange (start today : Int) : List Int :=
  (List.range (today + 1 - start).toNat).map (fun i => start + i)

/-- The forward loop of the break computation (src/main.py:3061-3153):
threads `(consecutive_days, max_consecutive_days)`; a day without notes or
with a high-FODMAP item resets the run, otherwise the run grows and the
maximum is updated. -/
def breakFoldPair (notes : List FoodNote) : List Int → Nat → Nat → Nat × Nat
  | [], c, m => (c, m)
  | d :: rest, c, m =>
    if (notesOn notes d).isEmpty then breakFoldPair notes rest 0 m
    else if dayHighFodmapB notes d then breakFoldPair notes rest 0 m
    else breakFoldPair notes rest (c + 1) (max m (c + 1))

/-- Value of `max_consecutive_days` after the forward walk from `start`
to `today`. -/
def breakMaxRun (notes : List FoodNote) (start today : Int) : Nat :=
  (breakFoldPair notes (dayRange start today) 0 0).2

/-- The source's diary window test of the symptom check: entry dated in
`[ws, ws + 3]` with any severity above 2. -/
def entryInWindowHighB (ws : Int) (e : DiaryEntry) : Bool :=
  decide (ws ≤ e.date) && decide (e.date ≤ ws + 3) && entryHighB e

/-- Set `phase2_reintroduction_days` (and the row timestamp) in the
`phase_tracking` row, as the source's UPDATE does. -/
def setReintroDays (st : Store) (v : Nat) (now : Int) : Store :=
  { st with
    phase_tracking := st.phase_tracking.map
      (fun pt => { pt with phase2_reintroduction_days := some v, updated_at := now }) }

/-- Set `phase2_break_days` (and the row timestamp) in the
`phase_tracking` row. -/
def setBreakDays (st : Store) (v : Nat) (now : Int) : Store :=
  { st with
    phase_tracking := st.phase_tracking.map
      (fun pt => { pt with phase2_break_days := some v, updated_at := now }) }

/-- The symptom-check UPDATE: write the tested group's result column,
clear `current_group`, refresh `updated_at`. -/
def recordGroupResult (st : Store) (g : FodmapGroup) (v : Nat) (now : Int) : Store :=
  { st with
    phase2_tracking := st.phase2_tracking.map
      (fun r => { r.setGroupVal g v with current_group := none, updated_at := now }) }

/-- The closing UPDATE of both branches: refresh `updated_at` of the
`phase2_tracking` row (a no-op on an absent row, as in SQL). -/
def touchPhase2Tracking (st : Store) (now : Int) : Store :=
  { st with
    phase2_tracking := st.phase2_tracking.map
      (fun r => { r with updated_at := now }) }

/-- Modelled from the spec: the `phase2_tracking` table DDL is not under
src/, so the column defaults used by the source's bare
`INSERT INTO phase2_tracking (user_id)` are taken from the spec's data
model (per-category result starts untested, no current group, row
timestamp set to now). -/
def freshPhase2Tracking (now : Int) : Phase2Tracking :=
  { fructose := 1, lactose := 1, fructan := 1, mannitol := 1, sorbitol := 1,
    gos := 1, current_group := none, updated_at := now }

/-- The INSERT of the break step when no `phase2_tracking` row exists. -/
def insertPhase2Tracking (st : Store) (now : Int) : Store :=
  { st with phase2_tracking := some (freshPhase2Tracking now) }

/-- Counters reported by the phase-2 endpoint's JSON response. -/
structure P2Result where
  reintroduction_days : Nat
  break_days : Nat
  days_since : Nat
deriving DecidableEq

instance {ε α : Type} [DecidableEq ε] [DecidableEq α] : DecidableEq (Except ε α) :=
  fun a b =>
  match a, b with
  | .ok x, .ok y =>
    if h : x = y then .isTrue (by rw [h]) else .isFalse (by simp [h])
  | .error x, .error y =>
    if h : x = y then .isTrue (by rw [h]) else .isFalse (by simp [h])
  | .ok _, .error _ => .isFalse (by simp)
  | .error _, .ok _ => .isFalse (by simp)

/-- Result, final store state and commit trace of one invocation of the
phase-2 endpoint.  `commits` lists the store snapshot at each
`conn.commit()` of the run, in order; `store` is the snapshot of the last
commit, or the initial store when the run commits nothing. -/
structure P2Outcome where
  result : Except StoreErr P2Result
  store : Store
  commits : List Store
deriving DecidableEq

/-- Step 2 of the high branch (src/main.py:2927-2935): when the stored
reintroduction counter is not yet 3, write 3 and commit. -/
def clampReintroStep (st : Store) (curR : Nat) (today : Int) : Store × List Store :=
  if curR ≠ 3 then
    let s := setReintroDays st 3 today
    (s, [s])
  else (st, [])

/-- The symptom check (src/main.py:2937-2999): when a `phase2_tracking`
row exists and a `current_group` is under test, scan diary entries dated
within three days of the row's `updated_at` date; any severity above 2
records the group as high (3), otherwise low (2); the group column is
written, `current_group` cleared and the row timestamp refreshed in one
committed UPDATE. -/
def symptomCheckStep (st : Store) (today : Int) : Store × List Store :=
  match st.phase2_tracking with
  | some p2t =>
    match p2t.current_group with
    | some g =>
      let ws := p2t.updated_at
      let highFound := st.diary.any (entryInWindowHighB ws)
      let v : Nat := if highFound then 3 else 2
      let s := recordGroupResult st g v today
      (s, [s])
    | none => (st, [])
  | none => (st, [])

/-- Resolution of the break walk's starting date
(src/main.py:3013-3032): an absent `phase2_tracking` row is inserted
(committed) and the walk starts at `phase2_date`; otherwise the walk
starts at the row's `updated_at` date. -/
def resolveBreakStart (st : Store) (p2 today : Int) : Store × List Store × Int :=
  match st.phase2_tracking with
  | none =>
    let s := insertPhase2Tracking st today
    (s, [s], p2)
  | some p2t => (st, [], p2t.updated_at)

/-- The break-day computation (src/main.py:3013-3172): walk the food notes
forward from the resolved starting date, store `min 3 max_consecutive_days`
when it differs from the current value (committed), then refresh the
`phase2_tracking` timestamp (committed).  Returns the new break-day count,
the resulting store and the commit snapshots. -/
def breakDaysStep (st : Store) (p2 : Int) (curB : Nat) (today : Int) :
    Nat × Store × List Store :=
  let s3 := resolveBreakStart st p2 today
  let newB : Nat := min 3 (breakMaxRun s3.1.food_notes s3.2.2 today)
  let s4 : Store × List Store :=
    if newB ≠ curB then
      let s := setBreakDays s3.1 newB today
      (s, [s])
    else (s3.1, [])
  let s5 := touchPhase2Tracking s4.1 today
  (newB, s5, s3.2.1 ++ s4.2 ++ [s5])

/-- The high branch of the endpoint (`new_reintroduction_days >= 3`):
clamp the reintroduction counter, run the symptom check, return early when
the break already reached 3, otherwise run the break-day computation. -/
def phase2HighPath (st : Store) (curR curB total : Nat) (p2 today : Int) : P2Outcome :=
  let s1 := clampReintroStep st curR today
  let s2 := symptomCheckStep s1.1 today
  if curB = 3 then
    ⟨.ok ⟨3, curB, total⟩, s2.1, s1.2 ++ s2.2⟩
  else
    let b := breakDaysStep s2.1 p2 curB today
    ⟨.ok ⟨3, b.1, total⟩, b.2.1, s1.2 ++ s2.2 ++ b.2.2⟩

/-- The low branch of the endpoint (src/main.py:3183-3208): store the new
reintroduction count when it changed (committed) and refresh the
`phase2_tracking` timestamp (committed). -/
def phase2LowPath (st : Store) (newR curR curB total : Nat) (today : Int) : P2Outcome :=
  let s1 : Store × List Store :=
    if newR ≠ curR then
      let s := setReintroDays st newR today
      (s, [s])
    else (st, [])
  let s2 := touchPhase2Tracking s1.1 today
  ⟨.ok ⟨newR, curB, total⟩, s2, s1.2 ++ [s2]⟩

/-- The `update_phase2_streak_days` endpoint (src/main.py:2860-3208).
404 without a `phases_timings.phase2_date` or without a `phase_tracking`
row; `total` is the day count since `phase2_date` floored at 0; the branch
on `3 ≤ min 3 total` mirrors the source's `new_reintroduction_days >= 3`. -/
def phase2Advance (st : Store) (today : Int) : P2Outcome :=
  match st.phases_timings with
  | none => ⟨.error .notFound, st, []⟩
  | some t =>
    match t.phase2_date with
    | none => ⟨.error .notFound, st, []⟩
    | some p2 =>
      let total : Nat := (today - p2).toNat
      match st.phase_tracking with
      | none => ⟨.error .notFound, st, []⟩
      | some pt =>
        let curR : Nat := pt.phase2_reintroduction_days.getD 0
        let curB : Nat := pt.phase2_break_days.getD 0
        let newR : Nat := min 3 total
        if 3 ≤ newR then phase2HighPath st curR curB total p2 today
        else phase2LowPath st newR curR curB total today

/-- Store state persisted when the external store fails after `k`
successful commits of one invocation: SQLite's rollback discards the
uncommitted tail, leaving the `k`-th committed snapshot (the initial
store when no commit succeeded). -/
def phase2PersistedAfterFailure (st : Store) (today : Int) (k : Nat) : Store :=
  (((phase2Advance st today).commits).take k).getLast?.getD st

/-- Reintroduction counter reported by an outcome, for stating results. -/
def reintroOf (o : P2Outcome) : Option Nat :=
  match o.result with
  | .ok r => some r.reintroduction_days
  | .error _ => none

/-- Break counter reported by an outcome, for stating results. -/
def breakOf (o : P2Outcome) : Option Nat :=
  match o.result with
  | .ok r => some r.break_days
  | .error _ => none

/-! ## Reference definitions written from the spec's words (for refinement
claims), and concrete scenario inputs -/

/-- Written from the spec's words (section 4.2): a food item is strictly
low-FODMAP across all six categories; catalog products need all six levels
at most 1, user-authored products (inverted scale) need all six levels at
least 2. -/
def itemAllLowSpec (it : FoodItem) : Prop :=
  if it.user_created then
    2 ≤ it.fructose_level ∧ 2 ≤ it.lactose_level ∧ 2 ≤ it.fructan_level ∧
    2 ≤ it.mannitol_level ∧ 2 ≤ it.sorbitol_level ∧ 2 ≤ it.gos_level
  else
    it.fructose_level ≤ 1 ∧ it.lactose_level ≤ 1 ∧ it.fructan_level ≤ 1 ∧
    it.mannitol_level ≤ 1 ∧ it.sorbitol_level ≤ 1 ∧ it.gos_level ≤ 1

instance : DecidablePred itemAllLowSpec := fun it => by
  unfold itemAllLowSpec
  infer_instance

/-- Written from the spec's words: a day passes (counts toward the break
streak) only if the day has food-log entries and every food item logged
that day is strictly low-FODMAP across all six categories. -/
def specDayPasses (notes : List FoodNote) (d : Int) : Bool :=
  decide (notesOn notes d ≠ [] ∧
    ∀ n ∈ notesOn notes d, ∀ it ∈ n.items, itemAllLowSpec it)

/-- Length of the leading run of `true` in a list of day verdicts. -/
def leadRun : List Bool → Nat
  | [] => 0
  | b :: r => if b then leadRun r + 1 else 0

/-- Written from the spec's words: the maximum length of a block of
consecutive passing days (the maximum over all suffixes of the leading
`true` run). -/
def maxConsecRun : List Bool → Nat
  | [] => 0
  | b :: r => max (leadRun (b :: r)) (maxConsecRun r)

/-- The `(consecutive, maximum)` fold over a list of day verdicts: the
shape of the source's forward loop once each day is reduced to pass/fail. -/
def foldBool : List Bool → Nat → Nat → Nat × Nat
  | [], c, m => (c, m)
  | b :: r, c, m =>
    if b then foldBool r (c + 1) (max m (c + 1))
    else foldBool r 0 m

/-- Maximum run the fold can still reach when the current run already has
`c` days: helper connecting `foldBool` with `maxConsecRun`. -/
def auxRun : Nat → List Bool → Nat
  | _, [] => 0
  | c, true :: r => max (c + 1) (auxRun (c + 1) r)
  | _, false :: r => auxRun 0 r

/-- Credit the leading run inherits from `c` days already accumulated:
helper for the `auxRun` characterization. -/
def condCredit (c : Nat) : List Bool → Nat
  | true :: r => c + leadRun (true :: r)
  | _ => 0

/-- The spec's phase-1 bound `days_since`: the number of calendar days in
the closed interval from `phase1_start` (day 0, the epoch, when absent) to
`today`. -/
def daysSinceStart (p1 : Option Int) (today : Int) : Nat :=
  match p1 with
  | some p => (today - p + 1).toNat
  | none => (today + 1).toNat

/-- A diary entry with all four severities low (value 1) on a given day. -/
def lowSevEntry (d : Int) : DiaryEntry :=
  ⟨d, 1, 1, 1, 1⟩

/-- Scenario C of the spec: diary entries with all severities at most 2 on
days 0, 1, 3 and 4, and no entries on day 2. -/
def diaryScenarioC : List DiaryEntry :=
  [lowSevEntry 0, lowSevEntry 1, lowSevEntry 3, lowSevEntry 4]

/-- Store for Scenario C: `phase1_start` on day 0, a `phase_tracking` row,
and the Scenario C diary. -/
def storeScenarioC : Store :=
  ⟨some ⟨some 0, none⟩, some ⟨1, some 0, some 0, some 0, none, 0⟩, none,
   diaryScenarioC, []⟩

/-- A catalog food item with all six FODMAP levels 0 (strictly low). -/
def catalogLowItem : FoodItem :=
  ⟨false, 0, 0, 0, 0, 0, 0⟩

/-- Store exercising the phase-2 idempotence claim: `phase2_start` day 0,
reintroduction counter already 3, break counter 0, a `phase2_tracking` row
last updated on day 4 with no group under test, and low-FODMAP food notes
on days 4 and 5. -/
def storeIdem : Store :=
  ⟨some ⟨none, some 0⟩, some ⟨2, some 0, some 3, some 0, none, 0⟩,
   some ⟨1, 1, 1, 1, 1, 1, none, 4⟩, [],
   [⟨4, [catalogLowItem]⟩, ⟨5, [catalogLowItem]⟩]⟩

/-- Store exercising the phase-2 atomicity claim: like `storeIdem` but
with the stored reintroduction counter still 0, so the invocation's first
commit is the reintroduction clamp. -/
def storeAtomic : Store :=
  ⟨some ⟨none, some 0⟩, some ⟨2, some 0, some 0, some 0, none, 0⟩,
   some ⟨1, 1, 1, 1, 1, 1, none, 4⟩, [],
   [⟨4, [catalogLowItem]⟩, ⟨5, [catalogLowItem]⟩]⟩

/-- Store with no `phases_timings` row, for the missing-`phase2_start`
claim. -/
def storeNoTimings : Store :=
  ⟨none, some ⟨1, some 0, some 0, some 0, none, 0⟩, none, [], []⟩

/-- The post-state of the phase-1 endpoint on the Scenario C store at day
4, used to witness frame facts at a concrete input. -/
def storeScenarioCPost : Store :=
  ⟨some ⟨some 0, none⟩, some ⟨1, some 4, some 0, some 0, none, 4⟩, none,
   diaryScenarioC, []⟩

/-- A diary with a high-severity entry (pain 5) on day 0, used to witness
the stop-immediately rule at a concrete input. -/
def diaryHighDay : List DiaryEntry :=
  [⟨0, 1, 1, 5, 1⟩]

/-- Store exercising the symptom check: `phase2_start` day 0,
reintroduction already 3, break 0, the fructan group under test since day
4, and a diary entry with pain 5 on day 5 (inside the test window). -/
def storeSymptom : Store :=
  ⟨some ⟨none, some 0⟩, some ⟨2, some 0, some 3, some 0, none, 0⟩,
   some ⟨1, 1, 1, 1, 1, 1, some .fructan, 4⟩, [⟨5, 1, 1, 5, 1⟩], []⟩

/-! ## Helper lemmas -/

lemma beforeStartB_false_iff (p1 : Option Int) (d : Int) :
    beforeStartB p1 d = false ↔ ¬ ∃ p, p1 = some p ∧ d < p := by
  cases p1 <;> simp [beforeStartB]

lemma entryHighB_false_iff (e : DiaryEntry) :
    entryHighB e = false ↔
      e.wind_level ≤ 2 ∧ e.bloat_level ≤ 2 ∧ e.pain_level ≤ 2 ∧ e.stool_level ≤ 2 := by
  simp [entryHighB]
  omega

lemma entryHighB_true_iff (e : DiaryEntry) :
    entryHighB e = true ↔
      2 < e.wind_level ∨ 2 < e.bloat_level ∨ 2 < e.pain_level ∨ 2 < e.stool_level := by
  simp [entryHighB, or_assoc]

lemma phase1Walk_le_some (entries : List DiaryEntry) (p : Int) :
    ∀ (fuel : Nat) (d : Int) (s dw : Nat),
      phase1Walk entries (some p) fuel d s dw ≤ s + (d - p + 1).toNat := by
  intro fuel
  induction fuel with
  | zero => intro d s dw; simp [phase1Walk]
  | succ n ih =>
    intro d s dw
    rw [phase1Walk]
    cases hb : beforeStartB (some p) d with
    | true => simp
    | false =>
      have hpd : ¬ d < p := by
        have := (beforeStartB_false_iff (some p) d).mp hb
        simpa using this
      simp only [Bool.false_eq_true, if_false]
      cases he : (entriesOn entries d).isEmpty with
      | true =>
        simp only [if_true]
        by_cases hdw : 2 ≤ dw + 1
        · simp [hdw]
        · have := ih (d - 1) s (dw + 1)
          simp only [hdw, if_false]
          omega
      | false =>
        simp only [Bool.false_eq_true, if_false]
        cases ha : (entriesOn entries d).any entryHighB with
        | true => simp
        | false =>
          have := ih (d - 1) (s + 1) 0
          simp only [Bool.false_eq_true, if_false]
          omega

lemma entriesOn_nonempty_date (entries : List DiaryEntry) (d : Int)
    (h : (entriesOn entries d).isEmpty = false) : ∃ e ∈ entries, e.date = d := by
  rcases List.exists_mem_of_ne_nil _ (by simpa [List.isEmpty_iff] using h) with ⟨e, he⟩
  rcases List.mem_filter.mp he with ⟨hmem, hdec⟩
  exact ⟨e, hmem, by simpa using hdec⟩

lemma phase1Walk_le_none (entries : List DiaryEntry)
    (hdates : ∀ e ∈ entries, 0 ≤ e.date) :
    ∀ (fuel : Nat) (d : Int) (s dw : Nat),
      phase1Walk entries none fuel d s dw ≤ s + (d + 1).toNat := by
  intro fuel
  induction fuel with
  | zero => intro d s dw; simp [phase1Walk]
  | succ n ih =>
    intro d s dw
    rw [phase1Walk]
    simp only [beforeStartB, Bool.false_eq_true, if_false]
    cases he : (entriesOn entries d).isEmpty with
    | true =>
      simp only [if_true]
      by_cases hdw : 2 ≤ dw + 1
      · simp [hdw]
      · have := ih (d - 1) s (dw + 1)
        simp only [hdw, if_false]
        omega
    | false =>
      have hd0 : 0 ≤ d := by
        rcases entriesOn_nonempty_date entries d he with ⟨e, hmem, hdate⟩
        have := hdates e hmem
        omega
      simp only [Bool.false_eq_true, if_false]
      cases ha : (entriesOn entries d).any entryHighB with
      | true => simp
      | false =>
        have := ih (d - 1) (s + 1) 0
        simp only [Bool.false_eq_true, if_false]
        omega

/-! ## Claims -/

/-- C1, counterexample: on the Scenario C input (phase1_start day 0, all
four severities at most 2 on days 0, 1, 3, 4, nothing on day 2) the
phase-1 endpoint at today = day 4 does not return streak_days = 5. -/
theorem phase1_singleGap_counterexample :
    streakResult (updatePhase1StreakDays storeScenarioC 4) ≠ some 5 := by
  decide

/-- C1, amended: on the Scenario C input the phase-1 endpoint at today =
day 4 returns streak_days = 4 — the streak continues across the single
missing day, but the gap day itself is not counted. -/
theorem phase1_singleGap_streak_four :
    streakResult (updatePhase1StreakDays storeScenarioC 4) = some 4 := by
  decide

/-- C4: the backward-walk rules of the phase-1 calculator.  Walking back
one day at a time and never past phase1_start: a day whose entries all
have every severity at most 2 counts one streak day and resets the
missing-day counter to 0; a day with an entry having any severity above 2
ends the walk at the accumulated count; a day with no entries increments
the missing-day counter, ending the walk uncounted once it reaches two
consecutive missing days and continuing otherwise; and a successful
endpoint run overwrites `phase1_streak_days` with the accumulated count. -/
theorem phase1_walk_step_rules (entries : List DiaryEntry) (p1 : Option Int)
    (fuel : Nat) (d : Int) (streak dw : Nat) :
    ((∃ p, p1 = some p ∧ d < p) →
      phase1Walk entries p1 (fuel + 1) d streak dw = streak) ∧
    (¬ (∃ p, p1 = some p ∧ d < p) →
      entriesOn entries d ≠ [] →
      (∀ e ∈ entriesOn entries d, e.wind_level ≤ 2 ∧ e.bloat_level ≤ 2 ∧
        e.pain_level ≤ 2 ∧ e.stool_level ≤ 2) →
      phase1Walk entries p1 (fuel + 1) d streak dw =
        phase1Walk entries p1 fuel (d - 1) (streak + 1) 0) ∧
    (¬ (∃ p, p1 = some p ∧ d < p) →
      (∃ e ∈ entriesOn entries d, 2 < e.wind_level ∨ 2 < e.bloat_level ∨
        2 < e.pain_level ∨ 2 < e.stool_level) →
      phase1Walk entries p1 (fuel + 1) d streak dw = streak) ∧
    (¬ (∃ p, p1 = some p ∧ d < p) →
      entriesOn entries d = [] → dw + 1 < 2 →
      phase1Walk entries p1 (fuel + 1) d streak dw =
        phase1Walk entries p1 fuel (d - 1) streak (dw + 1)) ∧
    (¬ (∃ p, p1 = some p ∧ d < p) →
      entriesOn entries d = [] → 2 ≤ dw + 1 →
      phase1Walk entries p1 (fuel + 1) d streak dw = streak) ∧
    (∀ (st : Store) (today : Int) (s : Nat) (st' : Store),
      updatePhase1StreakDays st today = .ok (s, st') →
      ∃ pt', st'.phase_tracking = some pt' ∧ pt'.phase1_streak_days = some s) := by
  refine ⟨?_, ?_, ?_, ?_, ?_, ?_⟩
  · intro hstop
    rcases hstop with ⟨p, hp, hlt⟩
    subst hp
    rw [phase1Walk]
    simp [beforeStartB, hlt]
  · intro hstop hne hlow
    have hb : beforeStartB p1 d = false := (beforeStartB_false_iff p1 d).mpr hstop
    have he : (entriesOn entries d).isEmpty = false := by
      simpa [List.isEmpty_iff] using hne
    have ha : (entriesOn entries d).any entryHighB = false := by
      rw [List.any_eq_false]
      intro e hmem
      rcases hlow e hmem with ⟨h1, h2, h3, h4⟩
      simp [entryHighB]
      omega
    rw [phase1Walk]
    simp [hb, he, ha]
  · intro hstop hhigh
    have hb : beforeStartB p1 d = false := (beforeStartB_false_iff p1 d).mpr hstop
    rcases hhigh with ⟨e, hmem, hsev⟩
    have he : (entriesOn entries d).isEmpty = false := by
      simpa [List.isEmpty_iff] using List.ne_nil_of_mem hmem
    have ha : (entriesOn entries d).any entryHighB = true :=
      List.any_eq_true.mpr ⟨e, hmem, (entryHighB_true_iff e).mpr hsev⟩
    rw [phase1Walk]
    simp [hb, he, ha]
  · intro hstop hemp hdw
    have hb : beforeStartB p1 d = false := (beforeStartB_false_iff p1 d).mpr hstop
    have he : (entriesOn entries d).isEmpty = true := by simp [List.isEmpty_iff, hemp]
    have hdw2 : ¬ 2 ≤ dw + 1 := by omega
    rw [phase1Walk]
    simp [hb, he, hdw2]
  · intro hstop hemp hdw
    have hb : beforeStartB p1 d = false := (beforeStartB_false_iff p1 d).mpr hstop
    have he : (entriesOn entries d).isEmpty = true := by simp [List.isEmpty_iff, hemp]
    rw [phase1Walk]
    simp [hb, he, hdw]
  · intro st today s st' hok
    cases hpt : st.phase_tracking with
    | none => simp [updatePhase1StreakDays, hpt] at hok
    | some pt =>
      simp [updatePhase1StreakDays, hpt] at hok
      obtain ⟨hs, hst⟩ := hok
      subst hst
      exact ⟨_, rfl, by rw [hs]⟩

/-- C4, witness: the step rules applied at concrete inputs — a low day
counts and resets the counter, the first missing day continues with the
counter incremented, the second consecutive missing day stops, a day
before phase1_start stops, a high day stops, and a successful endpoint run
stores the accumulated count. -/
theorem phase1_walk_step_rules_witness :
    (phase1Walk diaryScenarioC (some 0) 3 4 0 0 =
      phase1Walk diaryScenarioC (some 0) 2 3 1 0) ∧
    (phase1Walk diaryScenarioC (some 0) 3 2 2 0 =
      phase1Walk diaryScenarioC (some 0) 2 1 2 1) ∧
    (phase1Walk diaryScenarioC (some 0) 3 2 2 1 = 2) ∧
    (phase1Walk diaryScenarioC (some 0) 3 (-1) 4 0 = 4) ∧
    (phase1Walk diaryHighDay none 3 0 0 0 = 0) ∧
    (∃ pt', storeScenarioCPost.phase_tracking = some pt' ∧
      pt'.phase1_streak_days = some 4) := by
  have hnostop4 : ¬ ∃ p, (some (0 : Int)) = some p ∧ (4 : Int) < p := by
    rintro ⟨p, hp, hlt⟩
    injection hp with hp
    omega
  have hnostop2 : ¬ ∃ p, (some (0 : Int)) = some p ∧ (2 : Int) < p := by
    rintro ⟨p, hp, hlt⟩
    injection hp with hp
    omega
  have hnostopn : ¬ ∃ p, (none : Option Int) = some p ∧ (0 : Int) < p := by
    rintro ⟨p, hp, hlt⟩
    cases hp
  refine ⟨?_, ?_, ?_, ?_, ?_, ?_⟩
  · exact (phase1_walk_step_rules diaryScenarioC (some 0) 2 4 0 0).2.1
      hnostop4 (by decide) (by decide)
  · exact (phase1_walk_step_rules diaryScenarioC (some 0) 2 2 2 0).2.2.2.1
      hnostop2 (by decide) (by decide)
  · exact (phase1_walk_step_rules diaryScenarioC (some 0) 2 2 2 1).2.2.2.2.1
      hnostop2 (by decide) (by decide)
  · exact (phase1_walk_step_rules diaryScenarioC (some 0) 2 (-1) 4 0).1
      ⟨0, rfl, by omega⟩
  · exact (phase1_walk_step_rules diaryHighDay none 2 0 0 0).2.2.1
      hnostopn ⟨⟨0, 1, 1, 5, 1⟩, by decide, by decide⟩
  · exact (phase1_walk_step_rules diaryScenarioC (some 0) 0 0 0 0).2.2.2.2.2
      storeScenarioC 4 4 storeScenarioCPost (by decide)

/-- C7: phase-1 streak upper bound.  `daysSinceStart` counts the calendar
days in the closed interval from `phase1_start` (the epoch, day 0, when it
is absent) to `today`; for every store whose diary dates do not precede
the epoch, a successful phase-1 run returns a streak within
`[0, daysSinceStart]` (the lower bound holds because the streak is a
natural number). -/
theorem phase1_streak_upper_bound (st : Store) (today : Int) (s : Nat)
    (hok : streakResult (updatePhase1StreakDays st today) = some s)
    (hdates : ∀ e ∈ st.diary, 0 ≤ e.date) :
    s ≤ daysSinceStart (st.phases_timings.bind (fun t => t.phase1_date)) today := by
  cases hpt : st.phase_tracking with
  | none => simp [streakResult, updatePhase1StreakDays, hpt] at hok
  | some pt =>
    cases hp1 : st.phases_timings.bind (fun t => t.phase1_date) with
    | some p =>
      simp [streakResult, updatePhase1StreakDays, hpt, hp1] at hok
      have := phase1Walk_le_some (st.diary.filter (fun e => decide (p ≤ e.date))) p
        (phase1Fuel (st.diary.filter (fun e => decide (p ≤ e.date))) (some p) today)
        today 0 0
      rw [← hok]
      simpa [daysSinceStart, phase1Streak] using this
    | none =>
      simp [streakResult, updatePhase1StreakDays, hpt, hp1] at hok
      have := phase1Walk_le_none st.diary hdates
        (phase1Fuel st.diary none today) today 0 0
      rw [← hok]
      simpa [daysSinceStart, phase1Streak] using this

/-- C7, witness: the bound at the Scenario C input — the returned streak 4
is at most the 5 days from phase1_start (day 0) to day 4. -/
theorem phase1_streak_upper_bound_witness :
    4 ≤ daysSinceStart (storeScenarioC.phases_timings.bind (fun t => t.phase1_date)) 4 :=
  phase1_streak_upper_bound storeScenarioC 4 4 (by decide) (by decide)

/-- C10: frame property of the phase-1 update.  A successful run leaves
`phases_timings`, the `phase2_tracking` row, the diary and the food notes
unchanged, and inside the `phase_tracking` row changes only
`phase1_streak_days` (overwritten with the computed streak) and
`updated_at`; `current_phase`, both phase-2 counters and the current
FODMAP group column keep their values. -/
theorem phase1_update_frame (st : Store) (today : Int) (s : Nat) (st' : Store)
    (hok : updatePhase1StreakDays st today = .ok (s, st')) :
    st'.phases_timings = st.phases_timings ∧
    st'.phase2_tracking = st.phase2_tracking ∧
    st'.diary = st.diary ∧
    st'.food_notes = st.food_notes ∧
    ∀ pt, st.phase_tracking = some pt →
      ∃ pt', st'.phase_tracking = some pt' ∧
        pt'.current_phase = pt.current_phase ∧
        pt'.phase2_reintroduction_days = pt.phase2_reintroduction_days ∧
        pt'.phase2_break_days = pt.phase2_break_days ∧
        pt'.phase2_current_fodmap_group_id = pt.phase2_current_fodmap_group_id ∧
        pt'.phase1_streak_days = some s ∧
        pt'.updated_at = today := by
  cases hpt : st.phase_tracking with
  | none => simp [updatePhase1StreakDays, hpt] at hok
  | some pt =>
    simp [updatePhase1StreakDays, hpt] at hok
    obtain ⟨hs, hst⟩ := hok
    subst hst
    refine ⟨rfl, rfl, rfl, rfl, ?_⟩
    intro pt0 hpt0
    injection hpt0 with hpt0
    subst hpt0
    exact ⟨_, rfl, rfl, rfl, rfl, rfl, by rw [hs], rfl⟩

/-- C10, witness: the frame property applied at the Scenario C input. -/
theorem phase1_update_frame_witness :
    storeScenarioCPost.phases_timings = storeScenarioC.phases_timings ∧
    storeScenarioCPost.phase2_tracking = storeScenarioC.phase2_tracking ∧
    storeScenarioCPost.diary = storeScenarioC.diary ∧
    storeScenarioCPost.food_notes = storeScenarioC.food_notes ∧
    ∀ pt, storeScenarioC.phase_tracking = some pt →
      ∃ pt', storeScenarioCPost.phase_tracking = some pt' ∧
        pt'.current_phase = pt.current_phase ∧
        pt'.phase2_reintroduction_days = pt.phase2_reintroduction_days ∧
        pt'.phase2_break_days = pt.phase2_break_days ∧
        pt'.phase2_current_fodmap_group_id = pt.phase2_current_fodmap_group_id ∧
        pt'.phase1_streak_days = some 4 ∧
        pt'.updated_at = 4 :=
  phase1_update_frame storeScenarioC 4 4 storeScenarioCPost (by decide)

/-- C9: a missing `phases_timings` row, or one without `phase2_date`,
makes the phase-2 advance fail with the explicit not-found error, with no
computation persisted: the store is unchanged and no commit happened. -/
theorem phase2_missing_start_not_found (st : Store) (today : Int)
    (h : st.phases_timings = none ∨
      ∃ t, st.phases_timings = some t ∧ t.phase2_date = none) :
    (phase2Advance st today).result = .error .notFound ∧
    (phase2Advance st today).store = st ∧
    (phase2Advance st today).commits = [] := by
  rcases h with h | ⟨t, ht, hd⟩
  · simp [phase2Advance, h]
  · simp [phase2Advance, ht, hd]

/-- C9, witness: the not-found outcome at a store with no
`phases_timings` row. -/
theorem phase2_missing_start_not_found_witness :
    (phase2Advance storeNoTimings 5).result = .error .notFound ∧
    (phase2Advance storeNoTimings 5).store = storeNoTimings ∧
    (phase2Advance storeNoTimings 5).commits = [] :=
  phase2_missing_start_not_found storeNoTimings 5 (Or.inl rfl)

/-! ## Phase-2 step lemmas -/

lemma groupVal_ignore_meta (r : Phase2Tracking) (x : Option FodmapGroup)
    (y : Int) (g : FodmapGroup) :
    ({ r with current_group := x, updated_at := y } : Phase2Tracking).groupVal g =
      r.groupVal g := by
  cases g <;> rfl

lemma groupVal_setGroupVal_self (r : Phase2Tracking) (g : FodmapGroup) (v : Nat) :
    (r.setGroupVal g v).groupVal g = v := by
  cases g <;> rfl

lemma phase2Advance_dispatch_high (st : Store) (today : Int) (t : PhasesTimings)
    (p2 : Int) (pt : PhaseTracking)
    (h1 : st.phases_timings = some t) (h2 : t.phase2_date = some p2)
    (h3 : st.phase_tracking = some pt) (hge : 3 ≤ today - p2) :
    phase2Advance st today =
      phase2HighPath st (pt.phase2_reintroduction_days.getD 0)
        (pt.phase2_break_days.getD 0) ((today - p2).toNat) p2 today := by
  have htot : 3 ≤ (today - p2).toNat := by omega
  have hmin : 3 ≤ min 3 (today - p2).toNat := by
    have := Nat.min_eq_left htot
    omega
  simp [phase2Advance, h1, h2, h3, hmin]

lemma phase2Advance_dispatch_low (st : Store) (today : Int) (t : PhasesTimings)
    (p2 : Int) (pt : PhaseTracking)
    (h1 : st.phases_timings = some t) (h2 : t.phase2_date = some p2)
    (h3 : st.phase_tracking = some pt) (hlt : today - p2 < 3) :
    phase2Advance st today =
      phase2LowPath st (min 3 (today - p2).toNat)
        (pt.phase2_reintroduction_days.getD 0) (pt.phase2_break_days.getD 0)
        ((today - p2).toNat) today := by
  have htot : (today - p2).toNat < 3 := by omega
  have hmin : ¬ 3 ≤ min 3 (today - p2).toNat := by
    have := Nat.min_le_right 3 (today - p2).toNat
    omega
  simp [phase2Advance, h1, h2, h3, hmin]

lemma phase2LowPath_spec (st : Store) (today : Int) (newR curB total : Nat)
    (pt : PhaseTracking) (h3 : st.phase_tracking = some pt) :
    (phase2LowPath st newR (pt.phase2_reintroduction_days.getD 0) curB total
        today).result = .ok ⟨newR, curB, total⟩ ∧
    (phase2LowPath st newR (pt.phase2_reintroduction_days.getD 0) curB total
        today).store.phases_timings = st.phases_timings ∧
    (phase2LowPath st newR (pt.phase2_reintroduction_days.getD 0) curB total
        today).store.diary = st.diary ∧
    (phase2LowPath st newR (pt.phase2_reintroduction_days.getD 0) curB total
        today).store.food_notes = st.food_notes ∧
    ∃ pt', (phase2LowPath st newR (pt.phase2_reintroduction_days.getD 0) curB total
        today).store.phase_tracking = some pt' ∧
      pt'.phase2_reintroduction_days.getD 0 = newR ∧
      pt'.phase2_break_days = pt.phase2_break_days := by
  by_cases hc : newR = pt.phase2_reintroduction_days.getD 0
  · simp [phase2LowPath, touchPhase2Tracking, hc, h3]
  · simp [phase2LowPath, touchPhase2Tracking, setReintroDays, hc, h3]

lemma clampReintroStep_spec (st : Store) (today : Int) (pt : PhaseTracking)
    (h3 : st.phase_tracking = some pt) :
    (clampReintroStep st (pt.phase2_reintroduction_days.getD 0) today).1.phases_timings =
      st.phases_timings ∧
    (clampReintroStep st (pt.phase2_reintroduction_days.getD 0) today).1.phase2_tracking =
      st.phase2_tracking ∧
    (clampReintroStep st (pt.phase2_reintroduction_days.getD 0) today).1.diary = st.diary ∧
    (clampReintroStep st (pt.phase2_reintroduction_days.getD 0) today).1.food_notes =
      st.food_notes ∧
    ∃ pt', (clampReintroStep st (pt.phase2_reintroduction_days.getD 0) today).1.phase_tracking =
        some pt' ∧
      pt'.phase2_reintroduction_days.getD 0 = 3 ∧
      pt'.phase2_break_days = pt.phase2_break_days := by
  by_cases hc : pt.phase2_reintroduction_days.getD 0 = 3
  · simp [clampReintroStep, hc, h3]
  · simp [clampReintroStep, setReintroDays, hc, h3]

lemma symptomCheckStep_skips (st : Store) (today : Int)
    (h : st.phase2_tracking = none ∨
      ∃ r, st.phase2_tracking = some r ∧ r.current_group = none) :
    symptomCheckStep st today = (st, []) := by
  rcases h with h | ⟨r, hr, hg⟩
  · simp [symptomCheckStep, h]
  · simp [symptomCheckStep, hr, hg]

lemma symptomCheckStep_fires (st : Store) (today : Int) (p2t : Phase2Tracking)
    (g : FodmapGroup) (h : st.phase2_tracking = some p2t)
    (hg : p2t.current_group = some g) :
    symptomCheckStep st today =
      (recordGroupResult st g
        (if st.diary.any (entryInWindowHighB p2t.updated_at) then 3 else 2) today,
       [recordGroupResult st g
        (if st.diary.any (entryInWindowHighB p2t.updated_at) then 3 else 2) today]) := by
  simp [symptomCheckStep, h, hg]

lemma symptomCheckStep_frame (st : Store) (today : Int) :
    (symptomCheckStep st today).1.phases_timings = st.phases_timings ∧
    (symptomCheckStep st today).1.phase_tracking = st.phase_tracking ∧
    (symptomCheckStep st today).1.diary = st.diary ∧
    (symptomCheckStep st today).1.food_notes = st.food_notes := by
  cases h : st.phase2_tracking with
  | none => simp [symptomCheckStep, h]
  | some p2t =>
    cases hg : p2t.current_group with
    | none => simp [symptomCheckStep, h, hg]
    | some g => simp [symptomCheckStep, h, hg, recordGroupResult]

lemma symptomCheckStep_group_clear (st : Store) (today : Int) (r' : Phase2Tracking)
    (h' : (symptomCheckStep st today).1.phase2_tracking = some r') :
    (∃ r, st.phase2_tracking = some r ∧
      (r.current_group = none → r' = r) ∧ r'.current_group = none) ∨
    r'.current_group = none := by
  cases h : st.phase2_tracking with
  | none =>
    rw [symptomCheckStep_skips st today (Or.inl h)] at h'
    simp [h] at h'
  | some p2t =>
    cases hg : p2t.current_group with
    | none =>
      rw [symptomCheckStep_skips st today (Or.inr ⟨p2t, h, hg⟩), h] at h'
      injection h' with h'
      subst h'
      exact Or.inl ⟨p2t, rfl, fun _ => rfl, hg⟩
    | some g =>
      rw [symptomCheckStep_fires st today p2t g h hg] at h'
      simp only [recordGroupResult, h, Option.map_some] at h'
      injection h' with h'
      exact Or.inr (by rw [← h'])

lemma breakDaysStep_spec_some (st : Store) (p2 : Int) (curB : Nat) (today : Int)
    (p2t : Phase2Tracking) (h : st.phase2_tracking = some p2t) :
    (breakDaysStep st p2 curB today).1 =
      min 3 (breakMaxRun st.food_notes p2t.updated_at today) ∧
    (breakDaysStep st p2 curB today).2.1.phases_timings = st.phases_timings ∧
    (breakDaysStep st p2 curB today).2.1.diary = st.diary ∧
    (breakDaysStep st p2 curB today).2.1.food_notes = st.food_notes ∧
    (∃ r', (breakDaysStep st p2 curB today).2.1.phase2_tracking = some r' ∧
      r'.current_group = p2t.current_group ∧ r'.updated_at = today ∧
      ∀ g, r'.groupVal g = p2t.groupVal g) ∧
    (∀ pt, st.phase_tracking = some pt →
      ∃ pt', (breakDaysStep st p2 curB today).2.1.phase_tracking = some pt' ∧
        pt'.phase2_reintroduction_days = pt.phase2_reintroduction_days ∧
        pt'.phase2_break_days.getD 0 =
          (if min 3 (breakMaxRun st.food_notes p2t.updated_at today) = curB
            then pt.phase2_break_days.getD 0
            else min 3 (breakMaxRun st.food_notes p2t.updated_at today))) := by
  by_cases hc : min 3 (breakMaxRun st.food_notes p2t.updated_at today) = curB
  · refine ⟨?_, ?_, ?_, ?_, ?_, ?_⟩ <;>
      simp [breakDaysStep, resolveBreakStart, touchPhase2Tracking, h, hc,
        groupVal_ignore_meta]
    intro pt hpt
    simp [hpt]
  · refine ⟨?_, ?_, ?_, ?_, ?_, ?_⟩ <;>
      simp [breakDaysStep, resolveBreakStart, touchPhase2Tracking, setBreakDays, h, hc,
        groupVal_ignore_meta]
    intro pt hpt
    simp [hpt]

lemma breakDaysStep_spec_none (st : Store) (p2 : Int) (curB : Nat) (today : Int)
    (h : st.phase2_tracking = none) :
    (breakDaysStep st p2 curB today).1 =
      min 3 (breakMaxRun st.food_notes p2 today) ∧
    (breakDaysStep st p2 curB today).2.1.phases_timings = st.phases_timings ∧
    (breakDaysStep st p2 curB today).2.1.diary = st.diary ∧
    (breakDaysStep st p2 curB today).2.1.food_notes = st.food_notes ∧
    (∃ r', (breakDaysStep st p2 curB today).2.1.phase2_tracking = some r' ∧
      r'.current_group = none ∧ r'.updated_at = today) ∧
    (∀ pt, st.phase_tracking = some pt →
      ∃ pt', (breakDaysStep st p2 curB today).2.1.phase_tracking = some pt' ∧
        pt'.phase2_reintroduction_days = pt.phase2_reintroduction_days ∧
        pt'.phase2_break_days.getD 0 =
          (if min 3 (breakMaxRun st.food_notes p2 today) = curB
            then pt.phase2_break_days.getD 0
            else min 3 (breakMaxRun st.food_notes p2 today))) := by
  by_cases hc : min 3 (breakMaxRun st.food_notes p2 today) = curB
  · refine ⟨?_, ?_, ?_, ?_, ?_, ?_⟩ <;>
      simp [breakDaysStep, resolveBreakStart, touchPhase2Tracking,
        insertPhase2Tracking, freshPhase2Tracking, h, hc]
    intro pt hpt
    simp [hpt]
  · refine ⟨?_, ?_, ?_, ?_, ?_, ?_⟩ <;>
      simp [breakDaysStep, resolveBreakStart, touchPhase2Tracking, setBreakDays,
        insertPhase2Tracking, freshPhase2Tracking, h, hc]
    intro pt hpt
    simp [hpt]

lemma phase2HighPath_early_eq (st : Store) (curR curB total : Nat)
    (p2 today : Int) (hB : curB = 3) :
    phase2HighPath st curR curB total p2 today =
      ⟨.ok ⟨3, curB, total⟩,
       (symptomCheckStep (clampReintroStep st curR today).1 today).1,
       (clampReintroStep st curR today).2 ++
         (symptomCheckStep (clampReintroStep st curR today).1 today).2⟩ := by
  simp [phase2HighPath, hB]

lemma phase2HighPath_main_eq (st : Store) (curR curB total : Nat)
    (p2 today : Int) (hB : curB ≠ 3) :
    phase2HighPath st curR curB total p2 today =
      ⟨.ok ⟨3, (breakDaysStep (symptomCheckStep (clampReintroStep st curR today).1
          today).1 p2 curB today).1, total⟩,
       (breakDaysStep (symptomCheckStep (clampReintroStep st curR today).1
          today).1 p2 curB today).2.1,
       (clampReintroStep st curR today).2 ++
         (symptomCheckStep (clampReintroStep st curR today).1 today).2 ++
         (breakDaysStep (symptomCheckStep (clampReintroStep st curR today).1
          today).1 p2 curB today).2.2⟩ := by
  simp [phase2HighPath, hB]

lemma phase2HighPath_early_spec (st : Store) (today p2 : Int) (total : Nat)
    (pt : PhaseTracking) (h3 : st.phase_tracking = some pt)
    (hB : pt.phase2_break_days.getD 0 = 3) :
    (phase2HighPath st (pt.phase2_reintroduction_days.getD 0)
        (pt.phase2_break_days.getD 0) total p2 today).result = .ok ⟨3, 3, total⟩ ∧
    (phase2HighPath st (pt.phase2_reintroduction_days.getD 0)
        (pt.phase2_break_days.getD 0) total p2 today).store.phases_timings =
      st.phases_timings ∧
    (phase2HighPath st (pt.phase2_reintroduction_days.getD 0)
        (pt.phase2_break_days.getD 0) total p2 today).store.diary = st.diary ∧
    (phase2HighPath st (pt.phase2_reintroduction_days.getD 0)
        (pt.phase2_break_days.getD 0) total p2 today).store.food_notes =
      st.food_notes ∧
    (∃ pt', (phase2HighPath st (pt.phase2_reintroduction_days.getD 0)
        (pt.phase2_break_days.getD 0) total p2 today).store.phase_tracking =
        some pt' ∧
      pt'.phase2_reintroduction_days.getD 0 = 3 ∧
      pt'.phase2_break_days = pt.phase2_break_days) ∧
    (∀ r', (phase2HighPath st (pt.phase2_reintroduction_days.getD 0)
        (pt.phase2_break_days.getD 0) total p2 today).store.phase2_tracking =
        some r' → r'.current_group = none) := by
  obtain ⟨hf1, hf2, hf3, hf4, pt1, hpt1, hr1, hb1⟩ :=
    clampReintroStep_spec st today pt h3
  have hframe := symptomCheckStep_frame
    (clampReintroStep st (pt.phase2_reintroduction_days.getD 0) today).1 today
  rw [phase2HighPath_early_eq st (pt.phase2_reintroduction_days.getD 0)
    (pt.phase2_break_days.getD 0) total p2 today hB]
  refine ⟨by simp [hB], ?_, ?_, ?_, ?_, ?_⟩
  · rw [hframe.1, hf1]
  · rw [hframe.2.2.1, hf3]
  · rw [hframe.2.2.2, hf4]
  · exact ⟨pt1, by rw [hframe.2.1, hpt1], hr1, hb1⟩
  · intro r' hr'
    rcases symptomCheckStep_group_clear _ today r' hr' with ⟨r, hrr, himp, hnone⟩ | hnone
    · exact hnone
    · exact hnone

lemma phase2HighPath_main_spec (st : Store) (today p2 : Int) (total : Nat)
    (pt : PhaseTracking) (h3 : st.phase_tracking = some pt)
    (hB : pt.phase2_break_days.getD 0 ≠ 3) :
    ∃ newB, newB ≤ 3 ∧
    (phase2HighPath st (pt.phase2_reintroduction_days.getD 0)
        (pt.phase2_break_days.getD 0) total p2 today).result =
      .ok ⟨3, newB, total⟩ ∧
    (phase2HighPath st (pt.phase2_reintroduction_days.getD 0)
        (pt.phase2_break_days.getD 0) total p2 today).store.phases_timings =
      st.phases_timings ∧
    (phase2HighPath st (pt.phase2_reintroduction_days.getD 0)
        (pt.phase2_break_days.getD 0) total p2 today).store.diary = st.diary ∧
    (phase2HighPath st (pt.phase2_reintroduction_days.getD 0)
        (pt.phase2_break_days.getD 0) total p2 today).store.food_notes =
      st.food_notes ∧
    (∃ pt', (phase2HighPath st (pt.phase2_reintroduction_days.getD 0)
        (pt.phase2_break_days.getD 0) total p2 today).store.phase_tracking =
        some pt' ∧
      pt'.phase2_reintroduction_days.getD 0 = 3 ∧
      pt'.phase2_break_days.getD 0 = newB) ∧
    (∃ r', (phase2HighPath st (pt.phase2_reintroduction_days.getD 0)
        (pt.phase2_break_days.getD 0) total p2 today).store.phase2_tracking =
        some r' ∧ r'.current_group = none ∧ r'.updated_at = today) := by
  obtain ⟨hf1, hf2, hf3, hf4, pt1, hpt1, hr1, hb1⟩ :=
    clampReintroStep_spec st today pt h3
  set st1 := (clampReintroStep st (pt.phase2_reintroduction_days.getD 0) today).1 with hst1
  have hframe := symptomCheckStep_frame st1 today
  set st2 := (symptomCheckStep st1 today).1 with hst2
  have hpt2 : st2.phase_tracking = some pt1 := by rw [hframe.2.1, hpt1]
  rw [phase2HighPath_main_eq st (pt.phase2_reintroduction_days.getD 0)
    (pt.phase2_break_days.getD 0) total p2 today hB]
  cases h2t : st2.phase2_tracking with
  | some p2t =>
    obtain ⟨hv, hg1, hg2, hg3, ⟨r', hr', hcg, hup, _⟩, hptpart⟩ :=
      breakDaysStep_spec_some st2 p2 (pt.phase2_break_days.getD 0) today p2t h2t
    obtain ⟨pt', hpt', hre, hbrk⟩ := hptpart pt1 hpt2
    refine ⟨min 3 (breakMaxRun st2.food_notes p2t.updated_at today),
      Nat.min_le_left 3 _, ?_, ?_, ?_, ?_, ?_, ?_⟩
    · simp only [hv]
    · rw [hg1, hframe.1, hf1]
    · rw [hg2, hframe.2.2.1, hf3]
    · rw [hg3, hframe.2.2.2, hf4]
    · refine ⟨pt', hpt', by rw [hre, hr1], ?_⟩
      rw [hbrk]
      by_cases hc : min 3 (breakMaxRun st2.food_notes p2t.updated_at today) =
          pt.phase2_break_days.getD 0
      · rw [if_pos hc, hb1, hc]
      · rw [if_neg hc]
    · have hgnone : r'.current_group = none := by
        rcases symptomCheckStep_group_clear st1 today p2t h2t with
          ⟨r, hrr, himp, hnone⟩ | hnone
        · rw [hcg, hnone]
        · rw [hcg, hnone]
      exact ⟨r', hr', hgnone, hup⟩
  | none =>
    obtain ⟨hv, hg1, hg2, hg3, ⟨r', hr', hcg, hup⟩, hptpart⟩ :=
      breakDaysStep_spec_none st2 p2 (pt.phase2_break_days.getD 0) today h2t
    obtain ⟨pt', hpt', hre, hbrk⟩ := hptpart pt1 hpt2
    refine ⟨min 3 (breakMaxRun st2.food_notes p2 today),
      Nat.min_le_left 3 _, ?_, ?_, ?_, ?_, ?_, ?_⟩
    · simp only [hv]
    · rw [hg1, hframe.1, hf1]
    · rw [hg2, hframe.2.2.1, hf3]
    · rw [hg3, hframe.2.2.2, hf4]
    · refine ⟨pt', hpt', by rw [hre, hr1], ?_⟩
      rw [hbrk]
      by_cases hc : min 3 (breakMaxRun st2.food_notes p2 today) =
          pt.phase2_break_days.getD 0
      · rw [if_pos hc, hb1, hc]
      · rw [if_neg hc]
    · exact ⟨r', hr', hcg, hup⟩

/-- C8: clamp invariant of the phase-2 advance.  Counters are naturals
(never negative); for every store whose current break counter is within
the cap, a successful invocation reports a reintroduction count equal to
`min 3 (days since phase2_start, floored at 0)` (hence at most 3) and a
break count at most 3, and the persisted `phase_tracking` counters also
both lie within `[0, 3]`. -/
theorem phase2_clamp_invariant (st : Store) (today : Int) (pt : PhaseTracking)
    (r : P2Result)
    (hpt : st.phase_tracking = some pt)
    (hBpre : pt.phase2_break_days.getD 0 ≤ 3)
    (hok : (phase2Advance st today).result = .ok r) :
    r.reintroduction_days ≤ 3 ∧ r.break_days ≤ 3 ∧
    (∀ t p2, st.phases_timings = some t → t.phase2_date = some p2 →
      r.reintroduction_days = min 3 (today - p2).toNat) ∧
    (∀ pt', (phase2Advance st today).store.phase_tracking = some pt' →
      pt'.phase2_reintroduction_days.getD 0 ≤ 3 ∧
      pt'.phase2_break_days.getD 0 ≤ 3) := by
  cases ht : st.phases_timings with
  | none => simp [phase2Advance, ht] at hok
  | some t =>
    cases hp2 : t.phase2_date with
    | none => simp [phase2Advance, ht, hp2] at hok
    | some p2 =>
      by_cases hge : 3 ≤ today - p2
      · rw [phase2Advance_dispatch_high st today t p2 pt ht hp2 hpt hge] at hok ⊢
        have htot : 3 ≤ (today - p2).toNat := by omega
        by_cases hB : pt.phase2_break_days.getD 0 = 3
        · obtain ⟨hres, _, _, _, ⟨pt', hpt', hre', hbk'⟩, _⟩ :=
            phase2HighPath_early_spec st today p2 ((today - p2).toNat) pt hpt hB
          rw [hres] at hok
          injection hok with hok
          subst hok
          refine ⟨by simp, by simp, ?_, ?_⟩
          · intro t' p2' ht' hp2'
            injection ht' with ht'
            subst ht'
            rw [hp2] at hp2'
            injection hp2' with hp2'
            subst hp2'
            simp
            omega
          · intro pt'' hpt''
            rw [hpt'] at hpt''
            injection hpt'' with hpt''
            subst hpt''
            rw [hbk']
            exact ⟨by rw [hre'], hBpre⟩
        · obtain ⟨newB, hnB, hres, _, _, _, ⟨pt', hpt', hre', hbk'⟩, _⟩ :=
            phase2HighPath_main_spec st today p2 ((today - p2).toNat) pt hpt hB
          rw [hres] at hok
          injection hok with hok
          subst hok
          refine ⟨by simp, by simpa using hnB, ?_, ?_⟩
          · intro t' p2' ht' hp2'
            injection ht' with ht'
            subst ht'
            rw [hp2] at hp2'
            injection hp2' with hp2'
            subst hp2'
            simp
            omega
          · intro pt'' hpt''
            rw [hpt'] at hpt''
            injection hpt'' with hpt''
            subst hpt''
            rw [hbk']
            exact ⟨by rw [hre'], hnB⟩
      · have hlt : today - p2 < 3 := by omega
        rw [phase2Advance_dispatch_low st today t p2 pt ht hp2 hpt hlt] at hok ⊢
        obtain ⟨hres, _, _, _, pt', hpt', hre', hbk'⟩ :=
          phase2LowPath_spec st today (min 3 (today - p2).toNat)
            (pt.phase2_break_days.getD 0) ((today - p2).toNat) pt hpt
        rw [hres] at hok
        injection hok with hok
        subst hok
        refine ⟨by exact Nat.min_le_left 3 (today - p2).toNat,
          by exact hBpre, ?_, ?_⟩
        · intro t' p2' ht' hp2'
          injection ht' with ht'
          subst ht'
          rw [hp2] at hp2'
          injection hp2' with hp2'
          subst hp2'
          simp
        · intro pt'' hpt''
          rw [hpt'] at hpt''
          injection hpt'' with hpt''
          subst hpt''
          rw [hbk', hre']
          exact ⟨Nat.min_le_left 3 _, hBpre⟩

/-- C8, witness: the clamp at a concrete input (storeIdem, day 5):
the call reports reintroduction 3 and break 2, both within the cap. -/
theorem phase2_clamp_invariant_witness :
    (⟨3, 2, 5⟩ : P2Result).reintroduction_days ≤ 3 ∧
    (⟨3, 2, 5⟩ : P2Result).break_days ≤ 3 ∧
    (∀ t p2, storeIdem.phases_timings = some t → t.phase2_date = some p2 →
      (⟨3, 2, 5⟩ : P2Result).reintroduction_days = min 3 ((5 : Int) - p2).toNat) ∧
    (∀ pt', (phase2Advance storeIdem 5).store.phase_tracking = some pt' →
      pt'.phase2_reintroduction_days.getD 0 ≤ 3 ∧
      pt'.phase2_break_days.getD 0 ≤ 3) :=
  phase2_clamp_invariant storeIdem 5 ⟨2, some 0, some 3, some 0, none, 0⟩
    ⟨3, 2, 5⟩ (by decide) (by decide) (by decide)

/-- C2, counterexample: on `storeIdem` at day 5 (reintroduction already 3,
no group under test, low-FODMAP notes on days 4 and 5) the first call
reports break days 2, but the immediately repeated call with the same
today and no new entries reports break days 1 — the two calls do not yield
the same counters. -/
theorem phase2_idem_counterexample :
    breakOf (phase2Advance storeIdem 5) = some 2 ∧
    breakOf (phase2Advance (phase2Advance storeIdem 5).store 5) = some 1 ∧
    breakOf (phase2Advance (phase2Advance storeIdem 5).store 5) ≠
      breakOf (phase2Advance storeIdem 5) := by
  exact ⟨by decide, by decide, by decide⟩

/-- C2, amended: calling the phase-2 advance twice with the same today and
no new entries yields the same phase2_reintroduction_days from both calls;
the phase2_break_days also agree whenever the first call reports break
days 3 or reports reintroduction days below 3.  (In the remaining case the
second call may report fewer break days: it restarts the break walk at the
first call's refreshed `updated_at`, forgetting run days before it.) -/
theorem phase2_idem_amended (st : Store) (today : Int) (r1 : P2Result)
    (hok1 : (phase2Advance st today).result = .ok r1) :
    ∃ r2, (phase2Advance (phase2Advance st today).store today).result = .ok r2 ∧
      r2.reintroduction_days = r1.reintroduction_days ∧
      (r1.break_days = 3 → r2.break_days = r1.break_days) ∧
      (r1.reintroduction_days < 3 → r2.break_days = r1.break_days) := by
  cases ht : st.phases_timings with
  | none => simp [phase2Advance, ht] at hok1
  | some t =>
    cases hp2 : t.phase2_date with
    | none => simp [phase2Advance, ht, hp2] at hok1
    | some p2 =>
      cases hpt : st.phase_tracking with
      | none => simp [phase2Advance, ht, hp2, hpt] at hok1
      | some pt =>
        by_cases hge : 3 ≤ today - p2
        · rw [phase2Advance_dispatch_high st today t p2 pt ht hp2 hpt hge] at hok1 ⊢
          by_cases hB : pt.phase2_break_days.getD 0 = 3
          · obtain ⟨hres, htim, _, _, ⟨pt', hpt', hre', hbk'⟩, _⟩ :=
              phase2HighPath_early_spec st today p2 ((today - p2).toNat) pt hpt hB
            rw [hres] at hok1
            injection hok1 with hok1
            subst hok1
            set st1 := (phase2HighPath st (pt.phase2_reintroduction_days.getD 0)
              (pt.phase2_break_days.getD 0) ((today - p2).toNat) p2 today).store with hst1
            have htim1 : st1.phases_timings = some t := by rw [htim, ht]
            have hB1 : pt'.phase2_break_days.getD 0 = 3 := by rw [hbk', hB]
            rw [phase2Advance_dispatch_high st1 today t p2 pt' htim1 hp2 hpt' hge]
            obtain ⟨hres2, _, _, _, _, _⟩ :=
              phase2HighPath_early_spec st1 today p2 ((today - p2).toNat) pt' hpt' hB1
            rw [hre']
            rw [hre'] at hres2
            exact ⟨⟨3, 3, (today - p2).toNat⟩, hres2, rfl, fun _ => rfl, fun h => by omega⟩
          · obtain ⟨newB, hnB, hres, htim, _, _, ⟨pt', hpt', hre', hbk'⟩, _⟩ :=
              phase2HighPath_main_spec st today p2 ((today - p2).toNat) pt hpt hB
            rw [hres] at hok1
            injection hok1 with hok1
            subst hok1
            set st1 := (phase2HighPath st (pt.phase2_reintroduction_days.getD 0)
              (pt.phase2_break_days.getD 0) ((today - p2).toNat) p2 today).store with hst1
            have htim1 : st1.phases_timings = some t := by rw [htim, ht]
            rw [phase2Advance_dispatch_high st1 today t p2 pt' htim1 hp2 hpt' hge]
            by_cases hnB3 : newB = 3
            · have hB1 : pt'.phase2_break_days.getD 0 = 3 := by rw [hbk', hnB3]
              obtain ⟨hres2, _, _, _, _, _⟩ :=
                phase2HighPath_early_spec st1 today p2 ((today - p2).toNat) pt' hpt' hB1
              rw [hre']
              rw [hre'] at hres2
              refine ⟨⟨3, 3, (today - p2).toNat⟩, hres2, rfl, fun _ => by simp [hnB3],
                fun h => by simp at h⟩
            · have hB1 : pt'.phase2_break_days.getD 0 ≠ 3 := by rw [hbk']; exact hnB3
              obtain ⟨newB2, _, hres2, _, _, _, _, _⟩ :=
                phase2HighPath_main_spec st1 today p2 ((today - p2).toNat) pt' hpt' hB1
              rw [hre']
              rw [hre'] at hres2
              refine ⟨⟨3, newB2, (today - p2).toNat⟩, hres2, rfl,
                fun h => absurd h hnB3, fun h => by simp at h⟩
        · have hlt : today - p2 < 3 := by omega
          rw [phase2Advance_dispatch_low st today t p2 pt ht hp2 hpt hlt] at hok1 ⊢
          obtain ⟨hres, htim, _, _, pt', hpt', hre', hbk'⟩ :=
            phase2LowPath_spec st today (min 3 (today - p2).toNat)
              (pt.phase2_break_days.getD 0) ((today - p2).toNat) pt hpt
          rw [hres] at hok1
          injection hok1 with hok1
          subst hok1
          set st1 := (phase2LowPath st (min 3 (today - p2).toNat)
            (pt.phase2_reintroduction_days.getD 0) (pt.phase2_break_days.getD 0)
            ((today - p2).toNat) today).store with hst1
          have htim1 : st1.phases_timings = some t := by rw [htim, ht]
          rw [phase2Advance_dispatch_low st1 today t p2 pt' htim1 hp2 hpt' hlt]
          obtain ⟨hres2, _, _, _, pt'', hpt'', hre'', hbk''⟩ :=
            phase2LowPath_spec st1 today (min 3 (today - p2).toNat)
              (pt'.phase2_break_days.getD 0) ((today - p2).toNat) pt' hpt'
          refine ⟨⟨min 3 (today - p2).toNat, pt'.phase2_break_days.getD 0,
            (today - p2).toNat⟩, hres2, rfl, ?_, ?_⟩
          · intro _
            simp [hbk']
          · intro _
            simp [hbk']

/-- C2, witness: the amended idempotence applied at the concrete
counterexample input — the repeated call returns some result with the same
reintroduction count, the conditional break agreements holding
(vacuously here, since the first call reports break days 2 and
reintroduction days 3). -/
theorem phase2_idem_amended_witness :
    ∃ r2, (phase2Advance (phase2Advance storeIdem 5).store 5).result = .ok r2 ∧
      r2.reintroduction_days = (⟨3, 2, 5⟩ : P2Result).reintroduction_days ∧
      ((⟨3, 2, 5⟩ : P2Result).break_days = 3 →
        r2.break_days = (⟨3, 2, 5⟩ : P2Result).break_days) ∧
      ((⟨3, 2, 5⟩ : P2Result).reintroduction_days < 3 →
        r2.break_days = (⟨3, 2, 5⟩ : P2Result).break_days) :=
  phase2_idem_amended storeIdem 5 ⟨3, 2, 5⟩ (by decide)

lemma clampReintroStep_frame (st : Store) (curR : Nat) (today : Int) :
    (clampReintroStep st curR today).1.phases_timings = st.phases_timings ∧
    (clampReintroStep st curR today).1.phase2_tracking = st.phase2_tracking ∧
    (clampReintroStep st curR today).1.diary = st.diary ∧
    (clampReintroStep st curR today).1.food_notes = st.food_notes := by
  by_cases h : curR ≠ 3 <;> simp [clampReintroStep, setReintroDays, h]

lemma phase2HighPath_tracking_stable (st : Store) (curR curB total : Nat)
    (p2 today : Int) (r : Phase2Tracking)
    (h : st.phase2_tracking = some r) (hg : r.current_group = none) :
    ∃ r2, (phase2HighPath st curR curB total p2 today).store.phase2_tracking =
        some r2 ∧ ∀ g', r2.groupVal g' = r.groupVal g' := by
  have hcf := clampReintroStep_frame st curR today
  have hc : (clampReintroStep st curR today).1.phase2_tracking = some r := by
    rw [hcf.2.1, h]
  have hskip := symptomCheckStep_skips (clampReintroStep st curR today).1 today
    (Or.inr ⟨r, hc, hg⟩)
  by_cases hB : curB = 3
  · rw [phase2HighPath_early_eq st curR curB total p2 today hB, hskip]
    exact ⟨r, hc, fun g' => rfl⟩
  · rw [phase2HighPath_main_eq st curR curB total p2 today hB, hskip]
    obtain ⟨_, _, _, _, ⟨r2, hr2, _, _, hgv⟩, _⟩ :=
      breakDaysStep_spec_some (clampReintroStep st curR today).1 p2 curB today r hc
    exact ⟨r2, hr2, hgv⟩

/-- C6: the phase-2 symptom check.  Once the reintroduction-day count
computed from the dates has reached 3, if a FODMAP group is under test the
diary entries dated within the window from the tracking row's `updated_at`
date to three days after it are inspected: the group's result column is
set to high (3) when any severity exceeds 2 on any entry in the window and
to low (2) otherwise, and `current_group` is cleared; the immediately
repeated invocation leaves every group result unchanged (the check is
skipped because `current_group` is empty). -/
theorem phase2_symptom_check (st : Store) (today : Int) (t : PhasesTimings)
    (p2 : Int) (pt : PhaseTracking) (p2t : Phase2Tracking) (g : FodmapGroup)
    (h1 : st.phases_timings = some t) (h2 : t.phase2_date = some p2)
    (hge : 3 ≤ today - p2)
    (h3 : st.phase_tracking = some pt)
    (h5 : st.phase2_tracking = some p2t)
    (hg : p2t.current_group = some g) :
    ∃ r1, (phase2Advance st today).store.phase2_tracking = some r1 ∧
      r1.groupVal g =
        (if st.diary.any (entryInWindowHighB p2t.updated_at) then 3 else 2) ∧
      r1.current_group = none ∧
      ∃ r2, (phase2Advance (phase2Advance st today).store
          today).store.phase2_tracking = some r2 ∧
        ∀ g', r2.groupVal g' = r1.groupVal g' := by
  rw [phase2Advance_dispatch_high st today t p2 pt h1 h2 h3 hge]
  obtain ⟨hf1, hf2, hf3, hf4, pt1, hpt1, hre1, hbk1⟩ :=
    clampReintroStep_spec st today pt h3
  set st1c := (clampReintroStep st (pt.phase2_reintroduction_days.getD 0) today).1
    with hst1c
  have h5c : st1c.phase2_tracking = some p2t := by rw [hf2, h5]
  have hfire := symptomCheckStep_fires st1c today p2t g h5c hg
  have hdv : (if st1c.diary.any (entryInWindowHighB p2t.updated_at) then 3 else 2) =
      (if st.diary.any (entryInWindowHighB p2t.updated_at) then (3 : Nat) else 2) := by
    rw [hf3]
  set v : Nat := if st.diary.any (entryInWindowHighB p2t.updated_at) then 3 else 2
    with hv
  obtain ⟨rStar, hrStarDef⟩ : ∃ r : Phase2Tracking,
      r = { p2t.setGroupVal g v with current_group := none, updated_at := today } :=
    ⟨_, rfl⟩
  have hrec : (recordGroupResult st1c g v today).phase2_tracking = some rStar := by
    rw [hrStarDef]
    simp [recordGroupResult, h5c]
  have hgvStar : rStar.groupVal g = v := by
    rw [hrStarDef, groupVal_ignore_meta, groupVal_setGroupVal_self]
  have hcgStar : rStar.current_group = none := by rw [hrStarDef]
  have hrecframe1 : (recordGroupResult st1c g v today).phases_timings =
      st1c.phases_timings := rfl
  have hrecframe2 : (recordGroupResult st1c g v today).phase_tracking =
      st1c.phase_tracking := rfl
  by_cases hB : pt.phase2_break_days.getD 0 = 3
  · rw [phase2HighPath_early_eq st (pt.phase2_reintroduction_days.getD 0)
      (pt.phase2_break_days.getD 0) ((today - p2).toNat) p2 today hB]
    rw [hfire, hdv]
    refine ⟨rStar, hrec, hgvStar, hcgStar, ?_⟩
    set st1 := recordGroupResult st1c g v today with hst1
    have htim1 : st1.phases_timings = some t := by
      rw [hrecframe1, hf1, h1]
    have hpt1' : st1.phase_tracking = some pt1 := by
      rw [hrecframe2, hpt1]
    rw [phase2Advance_dispatch_high st1 today t p2 pt1 htim1 h2 hpt1' hge]
    exact phase2HighPath_tracking_stable st1 (pt1.phase2_reintroduction_days.getD 0)
      (pt1.phase2_break_days.getD 0) ((today - p2).toNat) p2 today rStar hrec hcgStar
  · rw [phase2HighPath_main_eq st (pt.phase2_reintroduction_days.getD 0)
      (pt.phase2_break_days.getD 0) ((today - p2).toNat) p2 today hB]
    rw [hfire, hdv]
    set st2 := recordGroupResult st1c g v today with hst2
    obtain ⟨_, hbf1, _, _, ⟨r1, hr1, hcg1, hup1, hgv1⟩, hbpt⟩ :=
      breakDaysStep_spec_some st2 p2 (pt.phase2_break_days.getD 0) today rStar hrec
    refine ⟨r1, hr1, by rw [hgv1 g, hgvStar], by rw [hcg1, hcgStar], ?_⟩
    set st1 := (breakDaysStep st2 p2 (pt.phase2_break_days.getD 0) today).2.1
      with hst1
    have htim1 : st1.phases_timings = some t := by
      rw [hbf1]
      show st2.phases_timings = some t
      rw [hrecframe1, hf1, h1]
    obtain ⟨pt2, hpt2, _, _⟩ := hbpt pt1 (by rw [hrecframe2, hpt1])
    have hcg1' : r1.current_group = none := by rw [hcg1, hcgStar]
    rw [phase2Advance_dispatch_high st1 today t p2 pt2 htim1 h2 hpt2 hge]
    obtain ⟨r2, hr2, hgv2⟩ := phase2HighPath_tracking_stable st1
      (pt2.phase2_reintroduction_days.getD 0) (pt2.phase2_break_days.getD 0)
      ((today - p2).toNat) p2 today r1 hr1 hcg1'
    exact ⟨r2, hr2, hgv2⟩

/-- C6, witness: the symptom check at a concrete input — group fructan
under test since day 4, a high-severity diary entry on day 5 inside the
window, today day 5: the result column is set to 3 and cleared, and the
repeated call preserves all group results. -/
theorem phase2_symptom_check_witness :
    ∃ r1, (phase2Advance storeSymptom 5).store.phase2_tracking = some r1 ∧
      r1.groupVal .fructan =
        (if storeSymptom.diary.any (entryInWindowHighB 4) then 3 else 2) ∧
      r1.current_group = none ∧
      ∃ r2, (phase2Advance (phase2Advance storeSymptom 5).store
          5).store.phase2_tracking = some r2 ∧
        ∀ g', r2.groupVal g' = r1.groupVal g' :=
  phase2_symptom_check storeSymptom 5 ⟨none, some 0⟩ 0
    ⟨2, some 0, some 3, some 0, none, 0⟩ ⟨1, 1, 1, 1, 1, 1, some .fructan, 4⟩
    .fructan (by decide) (by decide) (by decide) (by decide) (by decide) (by decide)

lemma highFodmapItemB_iff (it : FoodItem) :
    highFodmapItemB it = true ↔ ¬ itemAllLowSpec it := by
  cases hc : it.user_created <;>
    simp [highFodmapItemB, itemAllLowSpec, hc] <;> omega

lemma highFodmapItemB_false_iff (it : FoodItem) :
    highFodmapItemB it = false ↔ itemAllLowSpec it := by
  cases hc : it.user_created <;>
    simp [highFodmapItemB, itemAllLowSpec, hc] <;> omega

lemma dayPass_eq (notes : List FoodNote) (d : Int) :
    (!(notesOn notes d).isEmpty && !dayHighFodmapB notes d) =
      specDayPasses notes d := by
  rw [Bool.eq_iff_iff]
  simp only [Bool.and_eq_true, Bool.not_eq_true', specDayPasses,
    decide_eq_true_eq, dayHighFodmapB, List.isEmpty_eq_false,
    Bool.not_eq_true, List.any_eq_false, highFodmapItemB_false_iff]

lemma breakFoldPair_eq_foldBool (notes : List FoodNote) :
    ∀ (days : List Int) (c m : Nat),
      breakFoldPair notes days c m =
        foldBool (days.map (fun d =>
          !(notesOn notes d).isEmpty && !dayHighFodmapB notes d)) c m := by
  intro days
  induction days with
  | nil => intro c m; rfl
  | cons d rest ih =>
    intro c m
    rw [List.map_cons]
    by_cases he : (notesOn notes d).isEmpty
    · simp only [breakFoldPair, foldBool, he, if_true, Bool.not_true,
        Bool.false_and, if_false]
      exact ih 0 m
    · by_cases hh : dayHighFodmapB notes d
      · simp only [breakFoldPair, foldBool, he, hh, if_true, if_false,
          Bool.not_true, Bool.not_false, Bool.and_false,
          Bool.not_eq_true, Bool.true_and]
        simp only [Bool.not_eq_true] at he
        simp [he]
        exact ih 0 m
      · simp only [breakFoldPair, foldBool, he, hh, if_false, Bool.not_false,
          Bool.not_eq_true, Bool.true_and]
        simp only [Bool.not_eq_true] at he hh
        simp [he, hh]
        exact ih (c + 1) (max m (c + 1))

lemma foldBool_snd : ∀ (bs : List Bool) (c m : Nat),
    (foldBool bs c m).2 = max m (auxRun c bs) := by
  intro bs
  induction bs with
  | nil => intro c m; simp [foldBool, auxRun]
  | cons b r ih =>
    intro c m
    cases b with
    | true =>
      rw [foldBool, if_pos rfl, ih, auxRun]
      omega
    | false =>
      rw [foldBool, if_neg (by simp), ih, auxRun]

lemma leadRun_le_maxConsecRun (bs : List Bool) :
    leadRun bs ≤ maxConsecRun bs := by
  cases bs with
  | nil => simp [leadRun, maxConsecRun]
  | cons b r => rw [maxConsecRun]; exact le_max_left _ _

lemma condCredit_le_maxConsecRun (r : List Bool) :
    condCredit 0 r ≤ maxConsecRun r := by
  cases r with
  | nil => simp [condCredit]
  | cons b2 r2 =>
    cases b2 with
    | true =>
      have hle := leadRun_le_maxConsecRun (true :: r2)
      have e : condCredit 0 (true :: r2) = 0 + leadRun (true :: r2) := rfl
      omega
    | false => simp [condCredit]

lemma auxRun_eq (bs : List Bool) :
    ∀ c, auxRun c bs = max (condCredit c bs) (maxConsecRun bs) := by
  induction bs with
  | nil => intro c; simp [auxRun, condCredit, maxConsecRun]
  | cons b r ih =>
    intro c
    cases b with
    | true =>
      have e1 : auxRun c (true :: r) = max (c + 1) (auxRun (c + 1) r) := by
        simp [auxRun]
      rw [e1, ih (c + 1)]
      have e3 : condCredit c (true :: r) = c + leadRun (true :: r) := rfl
      have e4 : maxConsecRun (true :: r) =
          max (leadRun (true :: r)) (maxConsecRun r) := rfl
      cases r with
      | nil =>
        have l1 : leadRun [true] = 1 := by simp [leadRun]
        have e5 : condCredit (c + 1) ([] : List Bool) = 0 := rfl
        have e6 : maxConsecRun ([] : List Bool) = 0 := rfl
        rw [e3, e4, e5, e6, l1]
        omega
      | cons b2 r2 =>
        have l1 : leadRun (true :: b2 :: r2) = leadRun (b2 :: r2) + 1 := by
          simp [leadRun]
        cases b2 with
        | true =>
          have e5 : condCredit (c + 1) (true :: r2) =
              c + 1 + leadRun (true :: r2) := rfl
          have hle := leadRun_le_maxConsecRun (true :: r2)
          rw [e3, e4, e5, l1]
          omega
        | false =>
          have e5 : condCredit (c + 1) (false :: r2) = 0 := rfl
          have l2 : leadRun (false :: r2) = 0 := by simp [leadRun]
          rw [e3, e4, e5, l1, l2]
          omega
    | false =>
      have e1 : auxRun c (false :: r) = auxRun 0 r := by simp [auxRun]
      rw [e1, ih 0]
      have e3 : condCredit c (false :: r) = 0 := rfl
      have e4 : maxConsecRun (false :: r) =
          max (leadRun (false :: r)) (maxConsecRun r) := rfl
      have l2 : leadRun (false :: r) = 0 := by simp [leadRun]
      have hcc := condCredit_le_maxConsecRun r
      rw [e3, e4, l2]
      omega

lemma maxConsecRun_eq_foldBool (bs : List Bool) :
    (foldBool bs 0 0).2 = maxConsecRun bs := by
  rw [foldBool_snd, auxRun_eq]
  have hcc := condCredit_le_maxConsecRun bs
  omega

lemma breakMaxRun_eq_spec (notes : List FoodNote) (start today : Int) :
    breakMaxRun notes start today =
      maxConsecRun ((dayRange start today).map (specDayPasses notes)) := by
  unfold breakMaxRun
  rw [breakFoldPair_eq_foldBool]
  have hfun : (fun d => !(notesOn notes d).isEmpty && !dayHighFodmapB notes d) =
      specDayPasses notes := funext (dayPass_eq notes)
  rw [hfun, maxConsecRun_eq_foldBool]

/-- C5: phase-2 break-day computation.  A food item is low exactly when
the cross-scale test does not flag it (catalog: all six levels at most 1;
user-authored: all six levels at least 2, so a user-authored raw level 0
disqualifies just like a catalog level 2); a day passes exactly when it
has food notes and every logged item is low in all six categories; and on
the path that recomputes the break counter (reintroduction reached 3,
stored break not yet 3, no group under test) the endpoint reports and
persists `min 3` of the maximal consecutive-pass run of the forward walk
from the tracking row's `updated_at` date to today — a day with no notes
or with any high item interrupts (resets) the run. -/
theorem phase2_break_day_rules (st : Store) (today : Int) (t : PhasesTimings)
    (p2 : Int) (pt : PhaseTracking) (p2t : Phase2Tracking)
    (h1 : st.phases_timings = some t) (h2 : t.phase2_date = some p2)
    (hge : 3 ≤ today - p2) (h3 : st.phase_tracking = some pt)
    (hB : pt.phase2_break_days.getD 0 ≠ 3)
    (h5 : st.phase2_tracking = some p2t) (hg : p2t.current_group = none) :
    (∀ it : FoodItem, highFodmapItemB it = false ↔ itemAllLowSpec it) ∧
    (∀ d : Int, specDayPasses st.food_notes d = true ↔
      (notesOn st.food_notes d ≠ [] ∧
        ∀ n ∈ notesOn st.food_notes d, ∀ it ∈ n.items, itemAllLowSpec it)) ∧
    breakOf (phase2Advance st today) =
      some (min 3 (maxConsecRun
        ((dayRange p2t.updated_at today).map (specDayPasses st.food_notes)))) ∧
    ∃ pt', (phase2Advance st today).store.phase_tracking = some pt' ∧
      pt'.phase2_break_days.getD 0 =
        min 3 (maxConsecRun
          ((dayRange p2t.updated_at today).map (specDayPasses st.food_notes))) := by
  refine ⟨highFodmapItemB_false_iff, fun d => by simp [specDayPasses], ?_⟩
  rw [phase2Advance_dispatch_high st today t p2 pt h1 h2 h3 hge]
  obtain ⟨hf1, hf2, hf3, hf4, pt1, hpt1, hre1, hbk1⟩ :=
    clampReintroStep_spec st today pt h3
  set st1c := (clampReintroStep st (pt.phase2_reintroduction_days.getD 0) today).1
    with hst1c
  have h5c : st1c.phase2_tracking = some p2t := by rw [hf2, h5]
  have hskip := symptomCheckStep_skips st1c today (Or.inr ⟨p2t, h5c, hg⟩)
  rw [phase2HighPath_main_eq st (pt.phase2_reintroduction_days.getD 0)
    (pt.phase2_break_days.getD 0) ((today - p2).toNat) p2 today hB, hskip]
  obtain ⟨hv, _, _, _, _, hbpt⟩ :=
    breakDaysStep_spec_some st1c p2 (pt.phase2_break_days.getD 0) today p2t h5c
  have hnotes : st1c.food_notes = st.food_notes := hf4
  have hvspec : min 3 (breakMaxRun st1c.food_notes p2t.updated_at today) =
      min 3 (maxConsecRun
        ((dayRange p2t.updated_at today).map (specDayPasses st.food_notes))) := by
    rw [hnotes, breakMaxRun_eq_spec]
  constructor
  · simp only [breakOf, hv, hvspec]
  · obtain ⟨pt', hpt', hre', hbk'⟩ := hbpt pt1 hpt1
    refine ⟨pt', hpt', ?_⟩
    rw [hbk']
    by_cases hc : min 3 (breakMaxRun st1c.food_notes p2t.updated_at today) =
        pt.phase2_break_days.getD 0
    · rw [if_pos hc, hbk1, ← hc, hvspec]
    · rw [if_neg hc, hvspec]

/-- C5, witness: the break computation at the `storeIdem` input — the walk
from day 4 to day 5 over two low-FODMAP days yields break days 2, matching
the spec-side maximal-run formula. -/
theorem phase2_break_day_rules_witness :
    (∀ it : FoodItem, highFodmapItemB it = false ↔ itemAllLowSpec it) ∧
    (∀ d : Int, specDayPasses storeIdem.food_notes d = true ↔
      (notesOn storeIdem.food_notes d ≠ [] ∧
        ∀ n ∈ notesOn storeIdem.food_notes d, ∀ it ∈ n.items,
          itemAllLowSpec it)) ∧
    breakOf (phase2Advance storeIdem 5) =
      some (min 3 (maxConsecRun
        ((dayRange 4 5).map (specDayPasses storeIdem.food_notes)))) ∧
    ∃ pt', (phase2Advance storeIdem 5).store.phase_tracking = some pt' ∧
      pt'.phase2_break_days.getD 0 =
        min 3 (maxConsecRun
          ((dayRange 4 5).map (specDayPasses storeIdem.food_notes))) :=
  phase2_break_day_rules storeIdem 5 ⟨none, some 0⟩ 0
    ⟨2, some 0, some 3, some 0, none, 0⟩ ⟨1, 1, 1, 1, 1, 1, none, 4⟩
    (by decide) (by decide) (by decide) (by decide) (by decide) (by decide)
    (by decide)

lemma take_getLast_getD_mem (l : List Store) (st : Store) (k : Nat) :
    (l.take k).getLast?.getD st = st ∨ (l.take k).getLast?.getD st ∈ l := by
  cases h : (l.take k).getLast? with
  | none =>
    left
    rfl
  | some x =>
    right
    have hx : x ∈ (l.take k).getLast? := Option.mem_def.mpr h
    obtain ⟨hne, heq⟩ := List.mem_getLast?_eq_getLast hx
    rw [Option.getD_some, heq]
    exact List.take_subset k l (List.getLast_mem hne)

lemma phase2Advance_ok_or_notFound (st : Store) (today : Int) :
    (∃ r, (phase2Advance st today).result = .ok r) ∨
    ((phase2Advance st today).result = .error .notFound ∧
      (phase2Advance st today).store = st ∧
      (phase2Advance st today).commits = []) := by
  cases ht : st.phases_timings with
  | none => right; simp [phase2Advance, ht]
  | some t =>
    cases hp2 : t.phase2_date with
    | none => right; simp [phase2Advance, ht, hp2]
    | some p2 =>
      cases hpt : st.phase_tracking with
      | none => right; simp [phase2Advance, ht, hp2, hpt]
      | some pt =>
        left
        by_cases hge : 3 ≤ today - p2
        · rw [phase2Advance_dispatch_high st today t p2 pt ht hp2 hpt hge]
          by_cases hB : pt.phase2_break_days.getD 0 = 3
          · exact ⟨_, (phase2HighPath_early_spec st today p2
              ((today - p2).toNat) pt hpt hB).1⟩
          · obtain ⟨newB, _, hres, _⟩ :=
              phase2HighPath_main_spec st today p2 ((today - p2).toNat) pt hpt hB
            exact ⟨_, hres⟩
        · have hlt : today - p2 < 3 := by omega
          rw [phase2Advance_dispatch_low st today t p2 pt ht hp2 hpt hlt]
          exact ⟨_, (phase2LowPath_spec st today (min 3 (today - p2).toNat)
            (pt.phase2_break_days.getD 0) ((today - p2).toNat) pt hpt).1⟩

/-- C3, counterexample: on `storeAtomic` at day 5 the invocation makes
three commits (reintroduction clamp, break-day update, timestamp
refresh); a store failure after the first commit leaves a state that is
neither the initial store nor the final store — the reintroduction clamp
is persisted while the break-day update is not, so the step is not
all-or-nothing. -/
theorem phase2_atomicity_counterexample :
    ¬ (phase2PersistedAfterFailure storeAtomic 5 1 = storeAtomic ∨
       phase2PersistedAfterFailure storeAtomic 5 1 =
         (phase2Advance storeAtomic 5).store) := by
  decide

/-- C3, amended: persistence of the phase-2 advance is per-commit, not
per-invocation.  A store failure after any number of successful commits
leaves either the untouched initial store or the snapshot of one of the
run's commits (never a state in between), and a validation/not-found
error persists nothing (store unchanged, no commits). -/
theorem phase2_commit_granularity (st : Store) (today : Int) (k : Nat) :
    (phase2PersistedAfterFailure st today k = st ∨
      phase2PersistedAfterFailure st today k ∈ (phase2Advance st today).commits) ∧
    (∀ e, (phase2Advance st today).result = .error e →
      (phase2Advance st today).store = st ∧
      (phase2Advance st today).commits = []) := by
  constructor
  · unfold phase2PersistedAfterFailure
    exact take_getLast_getD_mem _ st k
  · intro e he
    rcases phase2Advance_ok_or_notFound st today with ⟨r, hr⟩ | ⟨_, hst, hcm⟩
    · rw [hr] at he
      exact Except.noConfusion he
    · exact ⟨hst, hcm⟩

/-- C3, witness: the per-commit property at concrete inputs — failing
after one commit on `storeAtomic` lands on a committed snapshot, and the
not-found error on a store without timings persists nothing. -/
theorem phase2_commit_granularity_witness :
    (phase2PersistedAfterFailure storeAtomic 5 1 = storeAtomic ∨
      phase2PersistedAfterFailure storeAtomic 5 1 ∈
        (phase2Advance storeAtomic 5).commits) ∧
    ((phase2Advance storeNoTimings 5).store = storeNoTimings ∧
      (phase2Advance storeNoTimings 5).commits = []) :=
  ⟨(phase2_commit_granularity storeAtomic 5 1).1,
   (phase2_commit_granularity storeNoTimings 5 0).2 .notFound (by decide)⟩
